import Mathlib

/-!
Verification of the one2track device-tracker core
(`custom_components/one2track/device_tracker.py`).

The development is a shallow embedding of the polling-coordination and
data-reconciliation engine:

* `TrackerDevice` is the Device Record (attributes as read by the sensor
  properties and listed in the data model).
* `One2TrackSensor` is the per-device Tracked Device entity: its cached
  record `_device` and cached zone name `_zone_name`.
* `GpsCoordinator` carries the coordinator state: `first_boot`,
  `last_update` (time modelled as a natural number supplied by the caller,
  standing for `datetime.now()`), and the last-published snapshot `data`.
* Python's built-in `float(...)` applied to a coordinate string is modelled
  by `pyFloat`, a parser for finite decimal literals
  (optional sign, digits with optional fractional part, optional decimal
  exponent) returning an exact rational; `inf`/`nan` spellings, underscore
  separators and surrounding whitespace are outside the modelled grammar,
  which covers the numeric-string coordinates the record carries.
  A raised `ValueError` is modelled as `Except.error`.
* Asynchronous effects are made explicit: the fetcher outcome of one
  refresh cycle is a `FetchOutcome` argument (success with data, raised
  error, or elapsed timeout), and the zone-lookup collaborator is a
  function argument returning a `ZoneLookupOutcome` (zone found, no active
  zone, or raised).

Reads on the entity (`location_name`, `latitude`, `longitude`,
`unique_id`) are Python `@property` getters containing no assignment; they
are embedded as pure functions of the sensor, so by construction a read
cannot alter the cached state.
-/

/-- Simcard sub-record of a Device Record (`device['simcard']`). -/
structure Simcard where
  tariff_type : String
  balance_cents : Int
deriving DecidableEq

/-- Last-location sub-record of a Device Record (`device['last_location']`).
Latitude and longitude are numeric strings, parsed only at read time. -/
structure LastLocation where
  latitude : String
  longitude : String
  last_communication : String
  last_location_update : String
  altitude : Int
  location_type : String
  address : String
  signal_strength : Int
  satellite_count : Int
  host : String
  port : Int
  battery_percentage : Int
deriving DecidableEq

/-- Device Record: one element of a fetched snapshot (`TrackerDevice`). -/
structure TrackerDevice where
  uuid : String
  name : String
  serial_number : String
  status : String
  phone_number : String
  simcard : Simcard
  last_location : LastLocation
deriving DecidableEq

/-- Tracked Device entity state: the cached record `_device` and the cached
zone name `_zone_name` (`One2TrackSensor.__init__` sets `_zone_name = None`). -/
structure One2TrackSensor where
  _device : TrackerDevice
  _zone_name : Option String
deriving DecidableEq

/-- Numeric value of a list of decimal digit characters. -/
def digitsVal (cs : List Char) : Nat :=
  List.foldl (fun a c => a * 10 + (c.toNat - 48)) 0 cs

/-- True when `cs` is a nonempty run of decimal digits. -/
def isDigits (cs : List Char) : Bool :=
  !cs.isEmpty && cs.all Char.isDigit

/-- Split a character list at every occurrence of `c`
(same shape as Python `str.split`). -/
def splitOnChar (c : Char) : List Char → List (List Char)
  | [] => [[]]
  | x :: xs =>
    let r := splitOnChar c xs
    if x == c then [] :: r
    else
      match r with
      | [] => [[x]]
      | y :: ys => (x :: y) :: ys

/-- Consume one optional leading sign, returning the sign as `1` or `-1`. -/
def parseSign : List Char → Int × List Char
  | '+' :: cs => ((1 : Int), cs)
  | '-' :: cs => ((-1 : Int), cs)
  | cs => ((1 : Int), cs)

/-- Parse an unsigned decimal literal `digits [. digits]` (at least one digit
on one side of the point) into an exact rational. -/
def parseFrac (cs : List Char) : Option ℚ :=
  match splitOnChar '.' cs with
  | [a] => if isDigits a then some (digitsVal a) else none
  | [a, b] =>
      if a.isEmpty && b.isEmpty then none
      else if a.all Char.isDigit && b.all Char.isDigit then
        some ((digitsVal a : ℚ) + (digitsVal b : ℚ) / (10 : ℚ) ^ b.length)
      else none
  | _ => none

/-- Parse a signed integer exponent part. -/
def parseExp (cs : List Char) : Option Int :=
  let p := parseSign cs
  if isDigits p.2 then some (p.1 * (digitsVal p.2 : Int)) else none

/-- Model of Python's built-in `float(s)` on finite decimal literals:
optional sign, then `digits [. digits]` or `. digits`, then an optional
`e`/`E` exponent with optional sign. Returns the exact rational value, or
`none` where `float` raises `ValueError`. -/
def pyFloat (s : String) : Option ℚ :=
  let p := parseSign s.toList
  match splitOnChar 'e' (p.2.map (fun c => if c == 'E' then 'e' else c)) with
  | [m] => (parseFrac m).map (fun q => (p.1 : ℚ) * q)
  | [m, ex] =>
      match parseFrac m, parseExp ex with
      | some q, some v => some ((p.1 : ℚ) * q * (10 : ℚ) ^ v)
      | _, _ => none
  | _ => none

/-- Host-facing unique id (`One2TrackSensor.unique_id`):
reads `self._device['uuid']`. -/
def unique_id (s : One2TrackSensor) : String :=
  s._device.uuid

/-- Location label (`One2TrackSensor.location_name`): `'home'` when the
record's `location_type` is `'WIFI'`; otherwise the cached zone name when it
is truthy (Python `if self._zone_name:`, so `None` and the empty string both
fall through); otherwise the record's raw `address`. -/
def location_name (s : One2TrackSensor) : String :=
  if s._device.last_location.location_type == "WIFI" then "home"
  else
    match s._zone_name with
    | some z => if z.isEmpty then s._device.last_location.address else z
    | none => s._device.last_location.address

/-- Latitude read (`One2TrackSensor.latitude`):
`float(self._device['last_location']['latitude'])`; a string outside the
float grammar raises `ValueError`, modelled as `Except.error`. -/
def latitude (s : One2TrackSensor) : Except String ℚ :=
  match pyFloat s._device.last_location.latitude with
  | some q => Except.ok q
  | none => Except.error "ValueError: could not convert string to float"

/-- Longitude read (`One2TrackSensor.longitude`). -/
def longitude (s : One2TrackSensor) : Except String ℚ :=
  match pyFloat s._device.last_location.longitude with
  | some q => Except.ok q
  | none => Except.error "ValueError: could not convert string to float"

/-- Outcome of one call to the zone-lookup collaborator
(`async_active_zone`): an active zone with its name, no active zone
(`None`), or a raised exception. -/
inductive ZoneLookupOutcome where
  | found (name : String)
  | notFound
  | raised
deriving DecidableEq

/-- Zone reconciliation (`One2TrackSensor._async_update_zone`): the whole
body runs under `try`, so a failure anywhere — the coordinate reads raising
`ValueError` or the lookup collaborator raising — is caught and clears the
cache to `None`; on success the cache is set to the zone's name, or `None`
when no zone is active. The function is total: no exception escapes. -/
def _async_update_zone (s : One2TrackSensor)
    (lookup : ℚ → ℚ → ZoneLookupOutcome) : One2TrackSensor :=
  match latitude s, longitude s with
  | Except.ok lat, Except.ok lon =>
      match lookup lat lon with
      | ZoneLookupOutcome.found n => { s with _zone_name := some n }
      | ZoneLookupOutcome.notFound => { s with _zone_name := none }
      | ZoneLookupOutcome.raised => { s with _zone_name := none }
  | _, _ => { s with _zone_name := none }

/-- Snapshot reconciliation (`One2TrackSensor._update_from_latest_data`):
find the first record whose `uuid` equals this sensor's `unique_id`
(Python `next((x for x in new_data if x['uuid'] == self.unique_id), None)`);
when found, replace the cached record wholesale; when absent, only log and
leave the state untouched. -/
def _update_from_latest_data (s : One2TrackSensor)
    (new_data : List TrackerDevice) : One2TrackSensor :=
  match new_data.find? (fun x => x.uuid == unique_id s) with
  | some me => { s with _device := me }
  | none => s

/-- Coordinator state (`GpsCoordinator`): the first-boot flag and the last
successful update timestamp held by the class itself, plus the
last-published snapshot `data` held for it by the host framework. -/
structure GpsCoordinator where
  first_boot : Bool
  last_update : Option Nat
  data : Option (List TrackerDevice)
deriving DecidableEq

/-- Outcome of one call to the fetcher `gps_api.update()` under
`async_timeout.timeout(300)`: data returned in time, an exception raised,
or the 300-unit timeout elapsed. -/
inductive FetchOutcome where
  | ok (data : List TrackerDevice)
  | raises (err : String)
  | timeout
deriving DecidableEq

/-- Typed failure signal (`UpdateFailed(err)`). -/
structure UpdateFailed where
  msg : String
deriving DecidableEq

/-- One refresh cycle body (`GpsCoordinator._async_update_data`): on a fetch
success the literal `update = True` flag is computed and
`if update or self.first_boot` decides between recording a fresh
`last_update` timestamp and returning the data, or returning `None`
(the "No new data to enter" branch); any exception in the `try` block —
including the elapsed timeout — is re-raised as `UpdateFailed`.
Returns the updated coordinator state together with the method's result. -/
def _async_update_data (c : GpsCoordinator) (fetch : FetchOutcome)
    (now : Nat) : GpsCoordinator × Except UpdateFailed (Option (List TrackerDevice)) :=
  match fetch with
  | FetchOutcome.ok d =>
      let update := true
      if update || c.first_boot then
        ({ c with last_update := some now }, Except.ok (some d))
      else
        (c, Except.ok none)
  | FetchOutcome.raises err => (c, Except.error ⟨err⟩)
  | FetchOutcome.timeout => (c, Except.error ⟨"TimeoutError"⟩)

/-- Modelled from the spec: the host framework's refresh wrapper around
`_async_update_data` (the `DataUpdateCoordinator` machinery is an external
collaborator, not part of this repository). A value returned by the cycle
body is published as the coordinator's new snapshot with no failure signal;
a raised `UpdateFailed` is surfaced as exactly one failure signal and the
last-published snapshot is left unchanged. -/
def refresh_once (c : GpsCoordinator) (fetch : FetchOutcome)
    (now : Nat) : GpsCoordinator × Option UpdateFailed :=
  match _async_update_data c fetch now with
  | (c', Except.ok d) => ({ c' with data := d }, none)
  | (c', Except.error e) => (c', some e)

/-! Concrete fixtures used by witnesses. -/

/-- Sample simcard. -/
def simA : Simcard := ⟨"prepaid", 250⟩

/-- Sample location with GPS fix at address "456 Oak". -/
def locGps : LastLocation :=
  ⟨"52.5", "4.5", "t1", "t2", 7, "GPS", "456 Oak", 4, 9, "h", 80, 77⟩

/-- Sample location with WIFI fix at address "123 Main". -/
def locWifi : LastLocation :=
  ⟨"52.5", "4.5", "t1", "t2", 7, "WIFI", "123 Main", 4, 9, "h", 80, 77⟩

/-- Sample location whose coordinate strings do not parse as floats. -/
def locBad : LastLocation :=
  ⟨"abc", "def", "t1", "t2", 7, "GPS", "456 Oak", 4, 9, "h", 80, 77⟩

/-- Sample record with uuid "a1" and a GPS location. -/
def devA : TrackerDevice := ⟨"a1", "kid", "sn1", "ok", "06", simA, locGps⟩

/-- Sample record with uuid "a1" and a WIFI location. -/
def devAWifi : TrackerDevice := ⟨"a1", "kid", "sn1", "ok", "06", simA, locWifi⟩

/-- Sample record with uuid "b2". -/
def devB : TrackerDevice := ⟨"b2", "dog", "sn2", "ok", "07", simA, locGps⟩

/-- Sample record with uuid "a1" and unparseable coordinates. -/
def devABad : TrackerDevice := ⟨"a1", "kid", "sn1", "ok", "06", simA, locBad⟩

/-- C1: if the snapshot contains a record whose uuid equals the sensor's
unique id (unique, per the data-model invariant), reconciliation ends with
the cached record equal to exactly that record — wholesale replacement, not
a merge — and leaves the zone cache alone. -/
theorem update_replaces_record_wholesale (s : One2TrackSensor)
    (snap : List TrackerDevice) (r : TrackerDevice)
    (hmem : r ∈ snap) (hid : r.uuid = unique_id s)
    (huniq : ∀ r' ∈ snap, r'.uuid = unique_id s → r' = r) :
    (_update_from_latest_data s snap)._device = r ∧
    (_update_from_latest_data s snap)._zone_name = s._zone_name := by
  cases hf : snap.find? (fun x => x.uuid == unique_id s) with
  | none =>
      have := List.find?_eq_none.mp hf r hmem
      simp [hid] at this
  | some me =>
      have hp := List.find?_some hf
      have hme : me.uuid = unique_id s := by simpa using hp
      have hmem' := List.mem_of_find?_eq_some hf
      simp [_update_from_latest_data, hf, huniq me hmem' hme]

/-- C1 witness: a two-record snapshot containing the sensor's record. -/
theorem update_replaces_record_wholesale_witness :
    (_update_from_latest_data ⟨devB, some "Office"⟩ [devB, devA])._device = devB ∧
    (_update_from_latest_data ⟨devB, some "Office"⟩ [devB, devA])._zone_name
      = some "Office" :=
  update_replaces_record_wholesale ⟨devB, some "Office"⟩ [devB, devA] devB
    (by decide) (by decide) (by decide)

/-- C2: if no record in the snapshot (in particular, in the empty snapshot)
carries the sensor's uuid, reconciliation returns the sensor state
unchanged in every field; the anomaly branch only logs, it raises nothing. -/
theorem update_missing_device_holds_state (s : One2TrackSensor)
    (snap : List TrackerDevice)
    (h : ∀ r ∈ snap, r.uuid ≠ unique_id s) :
    _update_from_latest_data s snap = s := by
  have hf : snap.find? (fun x => x.uuid == unique_id s) = none := by
    rw [List.find?_eq_none]
    intro x hx
    simpa using h x hx
  simp [_update_from_latest_data, hf]

/-- C2 witness: a sensor holding record "a1" reconciled against a snapshot
containing only "b2". -/
theorem update_missing_device_holds_state_witness :
    _update_from_latest_data ⟨devA, some "Office"⟩ [devB]
      = ⟨devA, some "Office"⟩ :=
  update_missing_device_holds_state ⟨devA, some "Office"⟩ [devB] (by decide)

/-- C3: whenever the cached record's location_type is "WIFI", the location
label is the fixed token "home", for every cached zone value and address. -/
theorem wifi_location_label_is_home (s : One2TrackSensor)
    (h : s._device.last_location.location_type = "WIFI") :
    location_name s = "home" := by
  simp [location_name, h]

/-- C3 witness: WIFI record with address "123 Main" and a cached zone
"Office" still labels "home". -/
theorem wifi_location_label_is_home_witness :
    location_name ⟨devAWifi, some "Office"⟩ = "home" :=
  wifi_location_label_is_home ⟨devAWifi, some "Office"⟩ (by decide)

/-- C4: with a non-WIFI location type and an empty/null zone cache, the
location label is exactly the record's raw address string. -/
theorem no_zone_label_is_address (s : One2TrackSensor)
    (h1 : s._device.last_location.location_type ≠ "WIFI")
    (h2 : s._zone_name = none ∨ s._zone_name = some "") :
    location_name s = s._device.last_location.address := by
  have he : ("" : String).isEmpty = true := rfl
  rcases h2 with h2 | h2 <;> simp [location_name, h1, h2, he]

/-- C4 witness: GPS record with address "456 Oak" and no cached zone labels
"456 Oak". -/
theorem no_zone_label_is_address_witness :
    location_name ⟨devA, none⟩ = "456 Oak" :=
  no_zone_label_is_address ⟨devA, none⟩ (by decide) (Or.inl rfl)

/-- C10: the sensor's unique id is invariant under reconciliation against
any snapshot: either the record is held, or the replacement was selected
precisely because its uuid equals the current unique id. -/
theorem unique_id_invariant_under_update (s : One2TrackSensor)
    (snap : List TrackerDevice) :
    unique_id (_update_from_latest_data s snap) = unique_id s := by
  cases hf : snap.find? (fun x => x.uuid == unique_id s) with
  | none => simp [_update_from_latest_data, hf]
  | some me =>
      have hp := List.find?_some hf
      have hme : me.uuid = unique_id s := by simpa using hp
      simp only [_update_from_latest_data, hf]
      simpa [unique_id] using hme

/-- C5: when the fetch raises or the timeout elapses, the cycle raises
exactly one typed `UpdateFailed` signal and the coordinator state — the
first-boot flag, the last-update timestamp and the last-published
snapshot — is exactly what it was before the cycle. -/
theorem failed_fetch_signals_and_preserves_state (c : GpsCoordinator)
    (fetch : FetchOutcome) (now : Nat)
    (h : (∃ e, fetch = FetchOutcome.raises e) ∨ fetch = FetchOutcome.timeout) :
    ∃ f : UpdateFailed,
      _async_update_data c fetch now = (c, Except.error f) ∧
      refresh_once c fetch now = (c, some f) := by
  rcases h with ⟨e, rfl⟩ | rfl
  · exact ⟨⟨e⟩, rfl, rfl⟩
  · exact ⟨⟨"TimeoutError"⟩, rfl, rfl⟩

/-- C5 witness: a raising fetch against a coordinator holding a previous
snapshot and timestamp. -/
theorem failed_fetch_signals_and_preserves_state_witness :
    ∃ f : UpdateFailed,
      _async_update_data ⟨false, some 5, some [devA]⟩
        (FetchOutcome.raises "boom") 9 = (⟨false, some 5, some [devA]⟩, Except.error f) ∧
      refresh_once ⟨false, some 5, some [devA]⟩
        (FetchOutcome.raises "boom") 9 = (⟨false, some 5, some [devA]⟩, some f) :=
  failed_fetch_signals_and_preserves_state ⟨false, some 5, some [devA]⟩
    (FetchOutcome.raises "boom") 9 (Or.inl ⟨"boom", rfl⟩)

/-- C6 counterexample: after a successful refresh cycle on a first-boot
coordinator the first-boot flag is still `true` — `_async_update_data`
never writes `first_boot`, so the flag is not cleared to `false` as
claimed. -/
theorem first_boot_not_cleared_counterexample :
    ¬ ((refresh_once ⟨true, none, none⟩ (FetchOutcome.ok [devA]) 3).1.first_boot
        = false) := by
  decide

/-- C6 (amended): a refresh cycle, successful or not, leaves the first-boot
flag exactly as it was; the code never clears it (the flag is moot because
the cycle's change flag is the constant `True`). -/
theorem first_boot_unchanged_by_refresh (c : GpsCoordinator)
    (fetch : FetchOutcome) (now : Nat) :
    (refresh_once c fetch now).1.first_boot = c.first_boot := by
  cases fetch <;> simp [refresh_once, _async_update_data]

/-- C7: every successful fetch is published — the snapshot becomes the
fetched data, the timestamp becomes the current time, no failure signal is
emitted — independent of the first-boot flag and the previous snapshot;
and the suppressing "No new data to enter" branch (result `Except.ok none`)
is unreachable for every fetch outcome, because the cycle's change flag is
the literal `True`. -/
theorem successful_fetch_always_published (c : GpsCoordinator)
    (d : List TrackerDevice) (now : Nat) :
    refresh_once c (FetchOutcome.ok d) now
      = ({ c with last_update := some now, data := some d }, none) ∧
    ∀ fetch : FetchOutcome,
      (_async_update_data c fetch now).2 ≠ Except.ok none := by
  constructor
  · simp [refresh_once, _async_update_data]
  · intro fetch
    cases fetch <;> simp [_async_update_data]

/-- C8: the coordinate reads return exactly the parse of the record's
latitude/longitude numeric string; on an unparseable string they return the
`ValueError` parse error — never a silently defaulted `ok` value. The reads
are pure functions of the sensor, so the error is confined to the read and
the cached state cannot be altered by it. -/
theorem coordinate_reads_parse_or_raise (s : One2TrackSensor) :
    (∀ q : ℚ, pyFloat s._device.last_location.latitude = some q →
       latitude s = Except.ok q) ∧
    (pyFloat s._device.last_location.latitude = none →
       latitude s = Except.error "ValueError: could not convert string to float" ∧
       ∀ q : ℚ, latitude s ≠ Except.ok q) ∧
    (∀ q : ℚ, pyFloat s._device.last_location.longitude = some q →
       longitude s = Except.ok q) ∧
    (pyFloat s._device.last_location.longitude = none →
       longitude s = Except.error "ValueError: could not convert string to float" ∧
       ∀ q : ℚ, longitude s ≠ Except.ok q) := by
  refine ⟨fun q hq => ?_, fun hn => ?_, fun q hq => ?_, fun hn => ?_⟩
  · simp [latitude, hq]
  · simp [latitude, hn]
  · simp [longitude, hq]
  · simp [longitude, hn]

/-- C8 witness: the latitude "52.5" reads as the rational 105/2; the
unparseable latitude "abc" reads as the `ValueError` error. -/
theorem coordinate_reads_parse_or_raise_witness :
    latitude ⟨devA, none⟩ = Except.ok ((105 : ℚ) / 2) ∧
    latitude ⟨devABad, none⟩
      = Except.error "ValueError: could not convert string to float" :=
  ⟨(coordinate_reads_parse_or_raise ⟨devA, none⟩).1 ((105 : ℚ) / 2)
      (by simp [devA, locGps, pyFloat, parseFrac, parseSign, splitOnChar,
            digitsVal, isDigits]; norm_num),
   ((coordinate_reads_parse_or_raise ⟨devABad, none⟩).2.1 (by decide)).1⟩

/-- C9: zone reconciliation never touches the cached record; a raised
lookup is swallowed (the embedding is a total function — no exception
propagates) and clears the zone cache to `None`; a lookup returning no
zone clears it likewise; a found zone sets the cache to the zone's name;
and a coordinate read failing inside the `try` also clears the cache. -/
theorem zone_update_swallows_failures (s : One2TrackSensor)
    (lookup : ℚ → ℚ → ZoneLookupOutcome) :
    (_async_update_zone s lookup)._device = s._device ∧
    (∀ lat lon : ℚ, latitude s = Except.ok lat → longitude s = Except.ok lon →
       (lookup lat lon = ZoneLookupOutcome.raised →
          (_async_update_zone s lookup)._zone_name = none) ∧
       (lookup lat lon = ZoneLookupOutcome.notFound →
          (_async_update_zone s lookup)._zone_name = none) ∧
       (∀ n, lookup lat lon = ZoneLookupOutcome.found n →
          (_async_update_zone s lookup)._zone_name = some n)) ∧
    (∀ e, latitude s = Except.error e →
       (_async_update_zone s lookup)._zone_name = none) := by
  refine ⟨?_, fun lat lon hlat hlon => ?_, fun e he => ?_⟩
  · unfold _async_update_zone
    cases latitude s <;> cases longitude s <;> simp
    case ok.ok lat lon => cases lookup lat lon <;> simp
  · refine ⟨fun hr => ?_, fun hr => ?_, fun n hr => ?_⟩ <;>
      simp [_async_update_zone, hlat, hlon, hr]
  · simp [_async_update_zone, he]

/-- C9 witness: with parseable coordinates, a lookup that always finds
"Office" sets the cache to "Office", and a lookup that always raises
clears it, leaving the record untouched in both runs. -/
theorem zone_update_swallows_failures_witness :
    (_async_update_zone ⟨devA, none⟩ (fun _ _ => ZoneLookupOutcome.found "Office"))._zone_name
      = some "Office" ∧
    (_async_update_zone ⟨devA, some "Office"⟩ (fun _ _ => ZoneLookupOutcome.raised))._zone_name
      = none ∧
    (_async_update_zone ⟨devA, some "Office"⟩ (fun _ _ => ZoneLookupOutcome.raised))._device
      = devA := by
  have hlat : latitude ⟨devA, none⟩ = Except.ok ((105 : ℚ) / 2) := by
    simp [devA, locGps, latitude, pyFloat, parseFrac, parseSign, splitOnChar,
      digitsVal, isDigits]
    norm_num
  have hlon : longitude ⟨devA, none⟩ = Except.ok ((9 : ℚ) / 2) := by
    simp [devA, locGps, longitude, pyFloat, parseFrac, parseSign, splitOnChar,
      digitsVal, isDigits]
    norm_num
  have hlat2 : latitude ⟨devA, some "Office"⟩ = Except.ok ((105 : ℚ) / 2) := hlat
  have hlon2 : longitude ⟨devA, some "Office"⟩ = Except.ok ((9 : ℚ) / 2) := hlon
  refine ⟨?_, ?_, ?_⟩
  · exact ((zone_update_swallows_failures ⟨devA, none⟩
      (fun _ _ => ZoneLookupOutcome.found "Office")).2.1
      ((105 : ℚ) / 2) ((9 : ℚ) / 2) hlat hlon).2.2 "Office" rfl
  · exact ((zone_update_swallows_failures ⟨devA, some "Office"⟩
      (fun _ _ => ZoneLookupOutcome.raised)).2.1
      ((105 : ℚ) / 2) ((9 : ℚ) / 2) hlat2 hlon2).1 rfl
  · exact (zone_update_swallows_failures ⟨devA, some "Office"⟩
      (fun _ _ => ZoneLookupOutcome.raised)).1
